import Mathlib

/-!
Verification of the login orchestrator in `src/main.py` (repository `mobile-app`).

The Python module is shallowly embedded as follows:
* Python strings are `List Char` (`PyStr`); `str.strip()` and `str.lower()`
  are embedded as `pyStrip` and `pyLower`.
* Python dict values are `PyVal` (string / int / bool / None); dicts used as
  event payloads are association lists.
* Exceptions are the inductive `PyExn`; `raise` is modelled with `Except`.
* `time.time()` readings come from an external integer clock (milliseconds,
  floating point not modelled); `time.sleep` is recorded as a trace action.
* The analytics sink (`track_event`) appends the event to the run's trace.
* The external credential verifier `login_user` is an oracle mapping the
  cleaned credentials and the attempt number (1-based call count) to either
  an identity or a raised exception.
-/

namespace Aqua

/-- Python strings, modelled as lists of characters. -/
abbrev PyStr := List Char

/-- The whitespace characters stripped by Python `str.strip()`
(space, tab, newline, carriage return, vertical tab, form feed). -/
def pyIsSpace (c : Char) : Bool :=
  c == ' ' || c == '\t' || c == '\n' || c == '\r' ||
    c == Char.ofNat 11 || c == Char.ofNat 12

/-- Python `str.lower()` on one character (ASCII letters; other characters are
unchanged, which covers every character the repository manipulates). -/
def pyLowerChar : Char → Char
  | 'A' => 'a'
  | 'B' => 'b'
  | 'C' => 'c'
  | 'D' => 'd'
  | 'E' => 'e'
  | 'F' => 'f'
  | 'G' => 'g'
  | 'H' => 'h'
  | 'I' => 'i'
  | 'J' => 'j'
  | 'K' => 'k'
  | 'L' => 'l'
  | 'M' => 'm'
  | 'N' => 'n'
  | 'O' => 'o'
  | 'P' => 'p'
  | 'Q' => 'q'
  | 'R' => 'r'
  | 'S' => 's'
  | 'T' => 't'
  | 'U' => 'u'
  | 'V' => 'v'
  | 'W' => 'w'
  | 'X' => 'x'
  | 'Y' => 'y'
  | 'Z' => 'z'
  | c => c

/-- Python `str.lower()`. -/
def pyLower (l : PyStr) : PyStr := l.map pyLowerChar

/-- Python `str.strip()`: drop whitespace from the front, then from the back. -/
def pyStrip (l : PyStr) : PyStr :=
  List.rdropWhile pyIsSpace (List.dropWhile pyIsSpace l)

/-- Python `needle in hay` on strings (contiguous substring test). -/
def pyContains (hay pat : PyStr) : Bool :=
  (List.range (hay.length + 1)).any fun i => pat.isPrefixOf (hay.drop i)

/-- Values stored in the Python dicts of the module. -/
inductive PyVal where
  | str (s : PyStr)
  | int (n : Int)
  | bool (b : Bool)
  | none
  deriving DecidableEq, Repr

/-- `d.get(k)` on a Python dict modelled as an association list
(returns `PyVal.none` for a missing key, like Python's default `None`). -/
def dictGet (d : List (String × PyVal)) (k : String) : PyVal :=
  match d.find? (fun p => p.1 == k) with
  | some p => p.2
  | Option.none => PyVal.none

/-- The exceptions that can flow through `main.py`.  Each carries the text
`str(e)` would produce; `otherExn` also carries its class name.  The
constructors mirror the concrete Python classes the module mentions:
`ValueError`, `TimeoutError`, `ConnectionError`, `PermissionError`,
`RuntimeError`, and an arbitrary further `Exception` subclass. -/
inductive PyExn where
  | valueError (msg : PyStr)
  | timeoutError (msg : PyStr)
  | connectionError (msg : PyStr)
  | permissionError (msg : PyStr)
  | runtimeError (msg : PyStr)
  | otherExn (clsName msg : PyStr)
  deriving DecidableEq, Repr

/-- `type(e).__name__`. -/
def exnName : PyExn → PyStr
  | PyExn.valueError _ => "ValueError".toList
  | PyExn.timeoutError _ => "TimeoutError".toList
  | PyExn.connectionError _ => "ConnectionError".toList
  | PyExn.permissionError _ => "PermissionError".toList
  | PyExn.runtimeError _ => "RuntimeError".toList
  | PyExn.otherExn n _ => n

/-- `str(e)`: the exception's message text. -/
def exnMsg : PyExn → PyStr
  | PyExn.valueError m => m
  | PyExn.timeoutError m => m
  | PyExn.connectionError m => m
  | PyExn.permissionError m => m
  | PyExn.runtimeError m => m
  | PyExn.otherExn _ m => m

/-- `isinstance(error, LOGIN_RETRYABLE_ERRORS)` where
`LOGIN_RETRYABLE_ERRORS = (TimeoutError, ConnectionError)` (main.py line 19). -/
def isRetryable : PyExn → Bool
  | PyExn.timeoutError _ => true
  | PyExn.connectionError _ => true
  | _ => false

/-- The authenticated user returned by the external verifier: an opaque
record with (at least) an `id` field (`user["id"]`). -/
structure Ident where
  id : PyStr
  deriving DecidableEq, Repr

/-- `LOGIN_MAX_ATTEMPTS = 3` (main.py line 17). -/
def LOGIN_MAX_ATTEMPTS : Nat := 3

/-- `LOGIN_RETRY_BACKOFF_SECONDS = 0.25` (main.py line 18), expressed in
integer milliseconds since the embedding does not model floating point. -/
def LOGIN_RETRY_BACKOFF_MS : Nat := 250

instance {ε α : Type} [DecidableEq ε] [DecidableEq α] : DecidableEq (Except ε α) := fun a b =>
  match a, b with
  | Except.ok x, Except.ok y =>
    if h : x = y then Decidable.isTrue (by rw [h]) else Decidable.isFalse (by simp [h])
  | Except.error x, Except.error y =>
    if h : x = y then Decidable.isTrue (by rw [h]) else Decidable.isFalse (by simp [h])
  | Except.ok _, Except.error _ => Decidable.isFalse (by simp)
  | Except.error _, Except.ok _ => Decidable.isFalse (by simp)

/-- The raw credential mapping fed to `main` (the hardcoded dict literal on
main.py lines 116-119 is a stand-in input source; per the spec's data model a
raw mapping has optional `username` / `password` string fields — absent keys
read as Python `None` through `dict.get` — and may carry a `remember_me`
flag, which `main.py` never reads). -/
structure RawCreds where
  username : Option PyStr
  password : Option PyStr
  remember_me : Option Bool
  deriving DecidableEq, Repr

/-- Python `(x or "")` on an optional string: `None` and `""` are falsy, so
both collapse to `""`. -/
def orEmpty : Option PyStr → PyStr
  | some s => s
  | Option.none => []

/-- `normalize_username` (main.py lines 22-26): `(username or "").strip().lower()`. -/
def normalize_username (username : Option PyStr) : PyStr :=
  pyLower (pyStrip (orEmpty username))

/-- `validate_credentials` (main.py lines 29-42): returns the cleaned
credentials dict, or raises `ValueError` for a missing field. -/
def validate_credentials (user_credentials : RawCreds) :
    Except PyExn (List (String × PyVal)) :=
  let username := normalize_username user_credentials.username
  let password := pyStrip (orEmpty user_credentials.password)
  if username = [] then Except.error (PyExn.valueError "Username is required.".toList)
  else if password = [] then Except.error (PyExn.valueError "Password is required.".toList)
  else Except.ok [("username", PyVal.str username), ("password", PyVal.str password)]

/-- Reading a returned credentials dict back as raw credential input
(Python `dict.get` semantics: a missing key reads as `None`). -/
def rawFromDict (d : List (String × PyVal)) : RawCreds where
  username := match dictGet d "username" with
    | PyVal.str s => some s
    | _ => Option.none
  password := match dictGet d "password" with
    | PyVal.str s => some s
    | _ => Option.none
  remember_me := match dictGet d "remember_me" with
    | PyVal.bool b => some b
    | _ => Option.none

/-- One analytics event as received by the sink. -/
structure Event where
  event_name : String
  user_id : Option PyStr
  correlation_id : String
  extra : List (String × PyVal)
  deriving DecidableEq, Repr

/-- `track_login_event` (main.py lines 45-56): assembles the payload —
event name, user id (default `None`), correlation id, extra keyword
fields — and forwards it to the sink. -/
def track_login_event (event_name : String) (correlation_id : String)
    (user_id : Option PyStr) (extra : List (String × PyVal)) : Event :=
  { event_name := event_name, user_id := user_id,
    correlation_id := correlation_id, extra := extra }

/-- Observable actions of one run: events handed to the sink, backoff sleeps
(in milliseconds), and console prints. -/
inductive Action where
  | event (e : Event)
  | sleep (ms : Nat)
  | print (msg : PyStr)
  deriving DecidableEq, Repr

/-- Behaviour of the external `login_user` collaborator over one run: from
the cleaned credentials and the 1-based number of the call, either a user
record or a raised exception. -/
abbrev Verifier := List (String × PyVal) → Nat → Except PyExn Ident

/-- The `login_attempt` event of one loop iteration (main.py lines 68-73). -/
def attemptEvent (correlation_id : String) (attempt : Nat) : Event :=
  track_login_event "login_attempt" correlation_id Option.none
    [("attempt", PyVal.int attempt), ("max_attempts", PyVal.int LOGIN_MAX_ATTEMPTS)]

/-- The `login_success` event (main.py lines 78-84). -/
def successEvent (correlation_id : String) (user : Ident) (attempt : Nat)
    (duration_ms : Int) : Event :=
  track_login_event "login_success" correlation_id (some user.id)
    [("attempt", PyVal.int attempt), ("duration_ms", PyVal.int duration_ms)]

/-- The `login_error` event emitted on the last attempt (main.py lines 91-97). -/
def loginErrorEvent (correlation_id : String) (error : PyExn) (attempt : Nat)
    (duration_ms : Int) : Event :=
  track_login_event "login_error" correlation_id Option.none
    [("error_type", PyVal.str (exnName error)), ("attempt", PyVal.int attempt),
      ("duration_ms", PyVal.int duration_ms)]

/-- The `for attempt in range(1, LOGIN_MAX_ATTEMPTS + 1)` loop of
`login_with_retries` (main.py lines 66-103), recursing on the number of
remaining iterations (`fuel`); `fuel = 0` is the loop falling through to the
`RuntimeError` on line 103.  `start` is the `time.time()` reading of line 64
and `clock 1` the reading taken at success or at final failure.  A retryable
exception on a non-final attempt sleeps `LOGIN_RETRY_BACKOFF_SECONDS * attempt`
(line 100) and continues; any other exception propagates out of the loop. -/
def loginLoop (credentials : List (String × PyVal)) (correlation_id : String)
    (verifier : Verifier) (clock : Nat → Int) (start : Int) :
    Nat → Nat → List Action × Except PyExn Ident
  | 0, _ =>
    ([], Except.error (PyExn.runtimeError "Login retry loop ended unexpectedly.".toList))
  | fuel + 1, attempt =>
    let attemptAct := Action.event (attemptEvent correlation_id attempt)
    match verifier credentials attempt with
    | Except.ok user =>
      ([attemptAct,
         Action.event (successEvent correlation_id user attempt (clock 1 - start))],
        Except.ok user)
    | Except.error error =>
      if isRetryable error then
        if attempt = LOGIN_MAX_ATTEMPTS then
          ([attemptAct,
             Action.event (loginErrorEvent correlation_id error attempt (clock 1 - start))],
            Except.error error)
        else
          let rest := loginLoop credentials correlation_id verifier clock start fuel (attempt + 1)
          (attemptAct :: Action.sleep (LOGIN_RETRY_BACKOFF_MS * attempt) :: rest.1, rest.2)
      else
        ([attemptAct], Except.error error)

/-- `login_with_retries` (main.py lines 59-103): the emitted action trace
paired with the returned user or raised exception. -/
def login_with_retries (credentials : List (String × PyVal)) (correlation_id : String)
    (verifier : Verifier) (clock : Nat → Int) : List Action × Except PyExn Ident :=
  loginLoop credentials correlation_id verifier clock (clock 0) LOGIN_MAX_ATTEMPTS 1

/-- The outcome of one `main()` run: normal return after a successful login,
normal return out of the `ValueError` handler, or an exception re-raised out
of `main` by the generic handler. -/
inductive MainOutcome where
  | loggedIn (user : Ident)
  | validationHandled
  | reraised (error : PyExn)
  deriving DecidableEq, Repr

/-- The two `except` handlers of `main` (main.py lines 130-147): `ValueError`
emits `login_failed` with `reason=str(error)` and prints the message; any
other exception emits `login_error` with the class name and prints a fixed
message (and is then re-raised). -/
def handleMainExn (correlation_id : String) (error : PyExn) : List Action :=
  match error with
  | PyExn.valueError msg =>
    [Action.event (track_login_event "login_failed" correlation_id Option.none
        [("reason", PyVal.str msg)]),
      Action.print ("Login failed: ".toList ++ msg)]
  | _ =>
    [Action.event (track_login_event "login_error" correlation_id Option.none
        [("error_type", PyVal.str (exnName error))]),
      Action.print "Unexpected error occurred.".toList]

/-- Which outcome each handler of `main` produces (`ValueError` is swallowed,
anything else re-raised, main.py lines 130-147). -/
def mainOutcomeOfExn (error : PyExn) : MainOutcome :=
  match error with
  | PyExn.valueError _ => MainOutcome.validationHandled
  | _ => MainOutcome.reraised error

/-- `main` (main.py lines 106-147), parameterised by the raw credentials (the
hardcoded dict literal of lines 116-119 is a stand-in input source, per the
spec), the generated correlation id (line 114), the external verifier
behaviour, and the external clock. -/
def mainRun (user_credentials : RawCreds) (correlation_id : String)
    (verifier : Verifier) (clock : Nat → Int) : List Action × MainOutcome :=
  match validate_credentials user_credentials with
  | Except.error error =>
    (handleMainExn correlation_id error, mainOutcomeOfExn error)
  | Except.ok cleaned_credentials =>
    let r := login_with_retries cleaned_credentials correlation_id verifier clock
    match r.2 with
    | Except.ok user =>
      (r.1 ++ [Action.print ("User logged in successfully. user_id=".toList ++ user.id)],
        MainOutcome.loggedIn user)
    | Except.error error =>
      (r.1 ++ handleMainExn correlation_id error, mainOutcomeOfExn error)

/-- The events of a trace, in emission order. -/
def eventsOf (trace : List Action) : List Event :=
  trace.filterMap fun a => match a with
    | Action.event e => some e
    | _ => Option.none

/-- How many events named `n` a trace holds. -/
def countEvents (trace : List Action) (n : String) : Nat :=
  (eventsOf trace).countP fun e => e.event_name == n

/-- How many backoff sleeps a trace holds. -/
def countSleeps (trace : List Action) : Nat :=
  trace.countP fun a => match a with
    | Action.sleep _ => true
    | _ => false

/-- How many `login_failed` / `login_error` events a trace holds. -/
def countFailureEvents (trace : List Action) : Nat :=
  countEvents trace "login_failed" + countEvents trace "login_error"

/-- The event names of a trace, in order. -/
def eventNames (trace : List Action) : List String :=
  (eventsOf trace).map Event.event_name

/-- Every string appearing in one action: the event name, any string-typed
payload value, the attached user id, or the printed message. -/
def actionStrings : Action → List PyStr
  | Action.event e =>
    e.event_name.toList ::
      ((match e.user_id with | some s => [s] | Option.none => []) ++
        e.extra.filterMap fun p => match p.2 with
          | PyVal.str s => some s
          | _ => Option.none)
  | Action.sleep _ => []
  | Action.print msg => [msg]

/-- Every string appearing anywhere in a trace. -/
def traceStrings (trace : List Action) : List PyStr :=
  trace.foldr (fun a r => actionStrings a ++ r) []

/-- Whether an outcome is a terminal failure (anything but a successful
login). -/
def MainOutcome.isFailure : MainOutcome → Bool
  | MainOutcome.loggedIn _ => false
  | _ => true

/-- Whether a call result is a raised transient (retryable) failure. -/
def isTransientErr : Except PyExn Ident → Bool
  | Except.error e => isRetryable e
  | Except.ok _ => false

/-- Whether a run reaches the verifier and sees transient failures on all
`LOGIN_MAX_ATTEMPTS` attempts (the retries-exhausted scenario). -/
def exhaustedTransient (raw : RawCreds) (verifier : Verifier) : Bool :=
  match validate_credentials raw with
  | Except.ok cleaned =>
    isTransientErr (verifier cleaned 1) && isTransientErr (verifier cleaned 2) &&
      isTransientErr (verifier cleaned 3)
  | Except.error _ => false

/-- Modelled from the spec: the standardized reason codes of the Error
Classifier (spec section 4.2 and the data model's `Error Code` enum); the
classifier component is not part of `src/main.py`. -/
inductive ErrorCode where
  | MISSING_USERNAME
  | MISSING_PASSWORD
  | INVALID_INPUT
  | INVALID_CREDENTIALS
  | TIMEOUT
  | UNKNOWN_ERROR
  deriving DecidableEq, Repr

/-- Modelled from the spec: `classify(failure) -> ErrorCode` (spec section
4.2), absent from `src/main.py`.  Rules in order: a validation failure's
message is inspected for the substrings "username" / "password"; a
permission-denied failure is `INVALID_CREDENTIALS`; a timeout is `TIMEOUT`;
anything else is `UNKNOWN_ERROR`. -/
def classify : PyExn → ErrorCode
  | PyExn.valueError msg =>
    if pyContains msg "username".toList then ErrorCode.MISSING_USERNAME
    else if pyContains msg "password".toList then ErrorCode.MISSING_PASSWORD
    else ErrorCode.INVALID_INPUT
  | PyExn.permissionError _ => ErrorCode.INVALID_CREDENTIALS
  | PyExn.timeoutError _ => ErrorCode.TIMEOUT
  | _ => ErrorCode.UNKNOWN_ERROR

/-- Modelled from the spec: `get_session_days` (spec sections 6 and 8), absent
from `src/main.py`: the session length is 30 days when `remember_me` is set,
else 1 day. -/
def get_session_days (remember_me : Bool) : Nat :=
  if remember_me then 30 else 1

/-! ### Lemmas about the embedded string primitives -/

lemma pyIsSpace_lowerChar (c : Char) : pyIsSpace (pyLowerChar c) = pyIsSpace c := by
  unfold pyLowerChar
  split <;> rfl

lemma pyLowerChar_cases (c : Char) :
    pyLowerChar c = c ∨ pyLowerChar c ∈
      ['a', 'b', 'c', 'd', 'e', 'f', 'g', 'h', 'i', 'j', 'k', 'l', 'm',
        'n', 'o', 'p', 'q', 'r', 's', 't', 'u', 'v', 'w', 'x', 'y', 'z'] := by
  unfold pyLowerChar
  split <;> simp

lemma pyLowerChar_idem (c : Char) : pyLowerChar (pyLowerChar c) = pyLowerChar c := by
  rcases pyLowerChar_cases c with h | h
  · simp only [h]
  · simp only [List.mem_cons, List.not_mem_nil, or_false] at h
    rcases h with h | h | h | h | h | h | h | h | h | h | h | h | h |
      h | h | h | h | h | h | h | h | h | h | h | h | h <;> rw [h] <;> rfl

lemma pyLower_idem (l : PyStr) : pyLower (pyLower l) = pyLower l := by
  simp only [pyLower, List.map_map]
  rw [show pyLowerChar ∘ pyLowerChar = pyLowerChar from funext pyLowerChar_idem]

lemma pyLower_eq_nil_iff (l : PyStr) : pyLower l = [] ↔ l = [] := by
  simp [pyLower]

lemma dropWhile_fix_of_rdropWhile {l : PyStr}
    (h : List.dropWhile pyIsSpace l = l) :
    List.dropWhile pyIsSpace (List.rdropWhile pyIsSpace l) =
      List.rdropWhile pyIsSpace l := by
  rcases heq : List.rdropWhile pyIsSpace l with _ | ⟨a, t⟩
  · simp
  · obtain ⟨s, hs⟩ := List.rdropWhile_prefix pyIsSpace l
    rw [heq] at hs
    have h0 : l = a :: (t ++ s) := by rw [← hs]; simp
    have ha : pyIsSpace a = false := by
      rw [h0] at h
      by_contra hb
      simp only [Bool.not_eq_false] at hb
      rw [List.dropWhile_cons_of_pos hb] at h
      have hlen := congrArg List.length h
      have hle : (List.dropWhile pyIsSpace (t ++ s)).length ≤ (t ++ s).length :=
        (List.dropWhile_suffix pyIsSpace).length_le
      simp only [List.length_cons] at hlen
      omega
    simp [List.dropWhile_cons, ha]

lemma pyStrip_fix_dropWhile (l : PyStr) :
    List.dropWhile pyIsSpace (pyStrip l) = pyStrip l :=
  dropWhile_fix_of_rdropWhile (List.dropWhile_idempotent pyIsSpace l)

lemma pyStrip_idem (l : PyStr) : pyStrip (pyStrip l) = pyStrip l := by
  calc pyStrip (pyStrip l)
      = List.rdropWhile pyIsSpace (List.dropWhile pyIsSpace (pyStrip l)) := rfl
    _ = List.rdropWhile pyIsSpace (pyStrip l) := by rw [pyStrip_fix_dropWhile]
    _ = pyStrip l := List.rdropWhile_idempotent pyIsSpace (List.dropWhile pyIsSpace l)

lemma pyStrip_lower (l : PyStr) : pyStrip (pyLower l) = pyLower (pyStrip l) := by
  have hfun : (pyIsSpace ∘ pyLowerChar) = pyIsSpace := funext pyIsSpace_lowerChar
  simp only [pyStrip, pyLower, List.rdropWhile]
  rw [List.dropWhile_map, hfun, ← List.map_reverse, List.dropWhile_map, hfun,
    ← List.map_reverse]

lemma normalize_username_idem (u : PyStr) :
    pyLower (pyStrip (pyLower (pyStrip u))) = pyLower (pyStrip u) := by
  rw [pyStrip_lower, pyStrip_idem, pyLower_idem]

/-! ### Characterization of `login_with_retries`, one lemma per shape of the
verifier's behaviour on the (at most three) calls actually made -/

section LoginShapes

variable (c : List (String × PyVal)) (cid : String) (v : Verifier) (clock : Nat → Int)

lemma login_shape_ok1 (u : Ident) (h1 : v c 1 = Except.ok u) :
    login_with_retries c cid v clock =
      ([Action.event (attemptEvent cid 1),
        Action.event (successEvent cid u 1 (clock 1 - clock 0))], Except.ok u) := by
  simp [login_with_retries, loginLoop, LOGIN_MAX_ATTEMPTS, h1]

lemma login_shape_perm1 (e : PyExn) (h1 : v c 1 = Except.error e)
    (hr : isRetryable e = false) :
    login_with_retries c cid v clock =
      ([Action.event (attemptEvent cid 1)], Except.error e) := by
  simp [login_with_retries, loginLoop, LOGIN_MAX_ATTEMPTS, h1, hr]

lemma login_shape_ok2 (e1 : PyExn) (u : Ident) (h1 : v c 1 = Except.error e1)
    (hr1 : isRetryable e1 = true) (h2 : v c 2 = Except.ok u) :
    login_with_retries c cid v clock =
      ([Action.event (attemptEvent cid 1), Action.sleep (LOGIN_RETRY_BACKOFF_MS * 1),
        Action.event (attemptEvent cid 2),
        Action.event (successEvent cid u 2 (clock 1 - clock 0))], Except.ok u) := by
  simp [login_with_retries, loginLoop, LOGIN_MAX_ATTEMPTS, h1, hr1, h2]

lemma login_shape_perm2 (e1 e2 : PyExn) (h1 : v c 1 = Except.error e1)
    (hr1 : isRetryable e1 = true) (h2 : v c 2 = Except.error e2)
    (hr2 : isRetryable e2 = false) :
    login_with_retries c cid v clock =
      ([Action.event (attemptEvent cid 1), Action.sleep (LOGIN_RETRY_BACKOFF_MS * 1),
        Action.event (attemptEvent cid 2)], Except.error e2) := by
  simp [login_with_retries, loginLoop, LOGIN_MAX_ATTEMPTS, h1, hr1, h2, hr2]

lemma login_shape_ok3 (e1 e2 : PyExn) (u : Ident) (h1 : v c 1 = Except.error e1)
    (hr1 : isRetryable e1 = true) (h2 : v c 2 = Except.error e2)
    (hr2 : isRetryable e2 = true) (h3 : v c 3 = Except.ok u) :
    login_with_retries c cid v clock =
      ([Action.event (attemptEvent cid 1), Action.sleep (LOGIN_RETRY_BACKOFF_MS * 1),
        Action.event (attemptEvent cid 2), Action.sleep (LOGIN_RETRY_BACKOFF_MS * 2),
        Action.event (attemptEvent cid 3),
        Action.event (successEvent cid u 3 (clock 1 - clock 0))], Except.ok u) := by
  simp [login_with_retries, loginLoop, LOGIN_MAX_ATTEMPTS, h1, hr1, h2, hr2, h3]

lemma login_shape_exhausted (e1 e2 e3 : PyExn) (h1 : v c 1 = Except.error e1)
    (hr1 : isRetryable e1 = true) (h2 : v c 2 = Except.error e2)
    (hr2 : isRetryable e2 = true) (h3 : v c 3 = Except.error e3)
    (hr3 : isRetryable e3 = true) :
    login_with_retries c cid v clock =
      ([Action.event (attemptEvent cid 1), Action.sleep (LOGIN_RETRY_BACKOFF_MS * 1),
        Action.event (attemptEvent cid 2), Action.sleep (LOGIN_RETRY_BACKOFF_MS * 2),
        Action.event (attemptEvent cid 3),
        Action.event (loginErrorEvent cid e3 3 (clock 1 - clock 0))],
        Except.error e3) := by
  simp [login_with_retries, loginLoop, LOGIN_MAX_ATTEMPTS, h1, hr1, h2, hr2, h3, hr3]

lemma login_shape_perm3 (e1 e2 e3 : PyExn) (h1 : v c 1 = Except.error e1)
    (hr1 : isRetryable e1 = true) (h2 : v c 2 = Except.error e2)
    (hr2 : isRetryable e2 = true) (h3 : v c 3 = Except.error e3)
    (hr3 : isRetryable e3 = false) :
    login_with_retries c cid v clock =
      ([Action.event (attemptEvent cid 1), Action.sleep (LOGIN_RETRY_BACKOFF_MS * 1),
        Action.event (attemptEvent cid 2), Action.sleep (LOGIN_RETRY_BACKOFF_MS * 2),
        Action.event (attemptEvent cid 3)], Except.error e3) := by
  simp [login_with_retries, loginLoop, LOGIN_MAX_ATTEMPTS, h1, hr1, h2, hr2, h3, hr3]

end LoginShapes

/-! ### Helper lemmas about validation and event counting -/

lemma validate_error_form {raw : RawCreds} {e : PyExn}
    (h : validate_credentials raw = Except.error e) :
    e = PyExn.valueError "Username is required.".toList ∨
      e = PyExn.valueError "Password is required.".toList := by
  simp only [validate_credentials] at h
  split_ifs at h with h1 h2
  · injection h with h
    exact Or.inl h.symm
  · injection h with h
    exact Or.inr h.symm

lemma countFailureEvents_append (a b : List Action) :
    countFailureEvents (a ++ b) = countFailureEvents a + countFailureEvents b := by
  simp only [countFailureEvents, countEvents, eventsOf, List.filterMap_append,
    List.countP_append]
  omega

lemma countFailure_handleMainExn (cid : String) (e : PyExn) :
    countFailureEvents (handleMainExn cid e) = 1 := by
  cases e <;> rfl

/-! ### Master case enumeration of one `main` run -/

lemma mainRun_cases (raw : RawCreds) (cid : String) (v : Verifier) (clock : Nat → Int) :
    (∃ m, validate_credentials raw = Except.error (PyExn.valueError m) ∧
      mainRun raw cid v clock =
        (handleMainExn cid (PyExn.valueError m), MainOutcome.validationHandled)) ∨
    (∃ c, validate_credentials raw = Except.ok c ∧
      ((∃ u, v c 1 = Except.ok u ∧
        mainRun raw cid v clock =
          ([Action.event (attemptEvent cid 1),
            Action.event (successEvent cid u 1 (clock 1 - clock 0)),
            Action.print ("User logged in successfully. user_id=".toList ++ u.id)],
            MainOutcome.loggedIn u)) ∨
      (∃ e, v c 1 = Except.error e ∧ isRetryable e = false ∧
        mainRun raw cid v clock =
          ([Action.event (attemptEvent cid 1)] ++ handleMainExn cid e,
            mainOutcomeOfExn e)) ∨
      (∃ e1 u, v c 1 = Except.error e1 ∧ isRetryable e1 = true ∧
        v c 2 = Except.ok u ∧
        mainRun raw cid v clock =
          ([Action.event (attemptEvent cid 1), Action.sleep (LOGIN_RETRY_BACKOFF_MS * 1),
            Action.event (attemptEvent cid 2),
            Action.event (successEvent cid u 2 (clock 1 - clock 0)),
            Action.print ("User logged in successfully. user_id=".toList ++ u.id)],
            MainOutcome.loggedIn u)) ∨
      (∃ e1 e2, v c 1 = Except.error e1 ∧ isRetryable e1 = true ∧
        v c 2 = Except.error e2 ∧ isRetryable e2 = false ∧
        mainRun raw cid v clock =
          ([Action.event (attemptEvent cid 1), Action.sleep (LOGIN_RETRY_BACKOFF_MS * 1),
            Action.event (attemptEvent cid 2)] ++ handleMainExn cid e2,
            mainOutcomeOfExn e2)) ∨
      (∃ e1 e2 u, v c 1 = Except.error e1 ∧ isRetryable e1 = true ∧
        v c 2 = Except.error e2 ∧ isRetryable e2 = true ∧ v c 3 = Except.ok u ∧
        mainRun raw cid v clock =
          ([Action.event (attemptEvent cid 1), Action.sleep (LOGIN_RETRY_BACKOFF_MS * 1),
            Action.event (attemptEvent cid 2), Action.sleep (LOGIN_RETRY_BACKOFF_MS * 2),
            Action.event (attemptEvent cid 3),
            Action.event (successEvent cid u 3 (clock 1 - clock 0)),
            Action.print ("User logged in successfully. user_id=".toList ++ u.id)],
            MainOutcome.loggedIn u)) ∨
      (∃ e1 e2 e3, v c 1 = Except.error e1 ∧ isRetryable e1 = true ∧
        v c 2 = Except.error e2 ∧ isRetryable e2 = true ∧
        v c 3 = Except.error e3 ∧ isRetryable e3 = true ∧
        mainRun raw cid v clock =
          ([Action.event (attemptEvent cid 1), Action.sleep (LOGIN_RETRY_BACKOFF_MS * 1),
            Action.event (attemptEvent cid 2), Action.sleep (LOGIN_RETRY_BACKOFF_MS * 2),
            Action.event (attemptEvent cid 3),
            Action.event (loginErrorEvent cid e3 3 (clock 1 - clock 0))] ++
              handleMainExn cid e3,
            mainOutcomeOfExn e3)) ∨
      (∃ e1 e2 e3, v c 1 = Except.error e1 ∧ isRetryable e1 = true ∧
        v c 2 = Except.error e2 ∧ isRetryable e2 = true ∧
        v c 3 = Except.error e3 ∧ isRetryable e3 = false ∧
        mainRun raw cid v clock =
          ([Action.event (attemptEvent cid 1), Action.sleep (LOGIN_RETRY_BACKOFF_MS * 1),
            Action.event (attemptEvent cid 2), Action.sleep (LOGIN_RETRY_BACKOFF_MS * 2),
            Action.event (attemptEvent cid 3)] ++ handleMainExn cid e3,
            mainOutcomeOfExn e3)))) := by
  rcases hv : validate_credentials raw with e | c
  · rcases validate_error_form hv with he | he <;>
      · left
        subst he
        exact ⟨_, rfl, by simp [mainRun, hv, mainOutcomeOfExn]⟩
  · right
    refine ⟨c, rfl, ?_⟩
    rcases h1 : v c 1 with e1 | u
    case ok =>
      left
      exact ⟨u, rfl, by simp [mainRun, hv, login_shape_ok1 c cid v clock u h1]⟩
    case error =>
      rcases hr1 : isRetryable e1 with _ | _
      case false =>
        right; left
        exact ⟨e1, rfl, hr1, by
          simp [mainRun, hv, login_shape_perm1 c cid v clock e1 h1 hr1]⟩
      case true =>
        rcases h2 : v c 2 with e2 | u
        case ok =>
          right; right; left
          exact ⟨e1, u, rfl, hr1, rfl, by
            simp [mainRun, hv, login_shape_ok2 c cid v clock e1 u h1 hr1 h2]⟩
        case error =>
          rcases hr2 : isRetryable e2 with _ | _
          case false =>
            right; right; right; left
            exact ⟨e1, e2, rfl, hr1, rfl, hr2, by
              simp [mainRun, hv, login_shape_perm2 c cid v clock e1 e2 h1 hr1 h2 hr2]⟩
          case true =>
            rcases h3 : v c 3 with e3 | u
            case ok =>
              right; right; right; right; left
              exact ⟨e1, e2, u, rfl, hr1, rfl, hr2, rfl, by
                simp [mainRun, hv,
                  login_shape_ok3 c cid v clock e1 e2 u h1 hr1 h2 hr2 h3]⟩
            case error =>
              rcases hr3 : isRetryable e3 with _ | _
              case false =>
                right; right; right; right; right; right
                exact ⟨e1, e2, e3, rfl, hr1, rfl, hr2, rfl, hr3, by
                  simp [mainRun, hv,
                    login_shape_perm3 c cid v clock e1 e2 e3 h1 hr1 h2 hr2 h3 hr3]⟩
              case true =>
                right; right; right; right; right; left
                exact ⟨e1, e2, e3, rfl, hr1, rfl, hr2, rfl, hr3, by
                  simp [mainRun, hv,
                    login_shape_exhausted c cid v clock e1 e2 e3 h1 hr1 h2 hr2 h3 hr3]⟩

/-! ### More helpers -/

lemma validate_ok_form {raw : RawCreds} {d : List (String × PyVal)}
    (h : validate_credentials raw = Except.ok d) :
    d = [("username", PyVal.str (normalize_username raw.username)),
      ("password", PyVal.str (pyStrip (orEmpty raw.password)))] ∧
    normalize_username raw.username ≠ [] ∧
    pyStrip (orEmpty raw.password) ≠ [] := by
  simp only [validate_credentials] at h
  by_cases h1 : normalize_username raw.username = []
  · rw [if_pos h1] at h
    exact Except.noConfusion h
  · rw [if_neg h1] at h
    by_cases h2 : pyStrip (orEmpty raw.password) = []
    · rw [if_pos h2] at h
      exact Except.noConfusion h
    · rw [if_neg h2] at h
      injection h with h
      exact ⟨h.symm, h1, h2⟩

lemma isTransientErr_form {r : Except PyExn Ident} (h : isTransientErr r = true) :
    ∃ e, r = Except.error e ∧ isRetryable e = true := by
  cases r with
  | error e => exact ⟨e, rfl, h⟩
  | ok u => exact Bool.noConfusion h

/-! ### Claim C9 -/

/-- C9: the session length is derived purely from the `remember_me` flag:
`get_session_days true = 30` and `get_session_days false = 1`.
(`get_session_days` is modelled from the spec; it does not occur in
`src/main.py`.) -/
theorem claim_C9 : get_session_days true = 30 ∧ get_session_days false = 1 :=
  ⟨rfl, rfl⟩

/-! ### Claim C5 -/

/-- C5: a raw credentials mapping whose username is empty or whitespace-only
after trimming fails validation with the missing-username `ValueError`
regardless of the password, and a mapping with a non-empty trimmed username
but empty trimmed password fails with the missing-password `ValueError`
(the username check runs first). -/
theorem claim_C5 (raw : RawCreds) :
    (pyStrip (orEmpty raw.username) = [] →
      validate_credentials raw =
        Except.error (PyExn.valueError "Username is required.".toList)) ∧
    (pyStrip (orEmpty raw.username) ≠ [] → pyStrip (orEmpty raw.password) = [] →
      validate_credentials raw =
        Except.error (PyExn.valueError "Password is required.".toList)) := by
  constructor
  · intro h
    have hu : normalize_username raw.username = [] := by
      simp [normalize_username, h, pyLower]
    simp [validate_credentials, hu]
  · intro h1 h2
    have hu : normalize_username raw.username ≠ [] := by
      simpa [normalize_username, pyLower_eq_nil_iff] using h1
    simp [validate_credentials, hu, h2]

/-- Witness for C5 at two concrete inputs (whitespace username; then
non-empty username with blank password). -/
theorem claim_C5_witness :
    validate_credentials ⟨some "  ".toList, some "pw".toList, Option.none⟩ =
      Except.error (PyExn.valueError "Username is required.".toList) ∧
    validate_credentials ⟨some "u".toList, some " ".toList, some false⟩ =
      Except.error (PyExn.valueError "Password is required.".toList) :=
  ⟨(claim_C5 ⟨some "  ".toList, some "pw".toList, Option.none⟩).1 (by decide),
    (claim_C5 ⟨some "u".toList, some " ".toList, some false⟩).2 (by decide) (by decide)⟩

/-! ### Claim C7 (corrected: the cleaned dict has no `remember_me` key) -/

/-- C7 counterexample: on a concrete input carrying `remember_me = True`,
`validate_credentials` succeeds, yet its result contains no `remember_me`
key at all (the lookup yields Python `None`, not a boolean), refuting the
claim that the validated result has a boolean `remember_me` field. -/
theorem claim_C7_counterexample :
    validate_credentials ⟨some "  Alice ".toList, some " pw ".toList, some true⟩ =
      Except.ok [("username", PyVal.str "alice".toList),
        ("password", PyVal.str "pw".toList)] ∧
    dictGet [("username", PyVal.str "alice".toList),
      ("password", PyVal.str "pw".toList)] "remember_me" = PyVal.none ∧
    (∀ b : Bool, dictGet [("username", PyVal.str "alice".toList),
      ("password", PyVal.str "pw".toList)] "remember_me" ≠ PyVal.bool b) := by
  refine ⟨by decide, by decide, ?_⟩
  intro b
  cases b <;> decide

/-- C7 amended: when validation succeeds the result is exactly the two-key
dict with the username trimmed and lowercased and the password trimmed, both
non-empty; it carries no `remember_me` key (the input's `remember_me` is
discarded, not defaulted to a boolean). -/
theorem claim_C7_amended (raw : RawCreds) (d : List (String × PyVal))
    (h : validate_credentials raw = Except.ok d) :
    ∃ u p, d = [("username", PyVal.str u), ("password", PyVal.str p)] ∧
      u = pyLower (pyStrip (orEmpty raw.username)) ∧
      pyStrip u = u ∧ pyLower u = u ∧ u ≠ [] ∧
      p = pyStrip (orEmpty raw.password) ∧ pyStrip p = p ∧ p ≠ [] ∧
      dictGet d "remember_me" = PyVal.none := by
  obtain ⟨hd, hu, hp⟩ := validate_ok_form h
  refine ⟨normalize_username raw.username, pyStrip (orEmpty raw.password),
    hd, rfl, ?_, ?_, hu, rfl, pyStrip_idem _, hp, ?_⟩
  · show pyStrip (pyLower (pyStrip (orEmpty raw.username))) = _
    rw [pyStrip_lower, pyStrip_idem]
    rfl
  · exact pyLower_idem _
  · rw [hd]
    rfl

/-- Witness for C7 amended at a concrete input. -/
theorem claim_C7_amended_witness :
    validate_credentials ⟨some " Bob ".toList, some " pw ".toList, some true⟩ =
      Except.ok [("username", PyVal.str "bob".toList),
        ("password", PyVal.str "pw".toList)] ∧
    (∃ u p, [("username", PyVal.str "bob".toList), ("password", PyVal.str "pw".toList)] =
        [("username", PyVal.str u), ("password", PyVal.str p)] ∧
      u = pyLower (pyStrip (orEmpty (some " Bob ".toList))) ∧
      pyStrip u = u ∧ pyLower u = u ∧ u ≠ [] ∧
      p = pyStrip (orEmpty (some " pw ".toList)) ∧ pyStrip p = p ∧ p ≠ [] ∧
      dictGet [("username", PyVal.str "bob".toList), ("password", PyVal.str "pw".toList)]
        "remember_me" = PyVal.none) :=
  ⟨by decide,
    claim_C7_amended ⟨some " Bob ".toList, some " pw ".toList, some true⟩
      [("username", PyVal.str "bob".toList), ("password", PyVal.str "pw".toList)]
      (by decide)⟩

/-! ### Claim C8 -/

/-- C8: validation is idempotent — feeding a successful result of
`validate_credentials` back through `validate_credentials` (reading the
returned dict with Python `dict.get` semantics) succeeds with the identical
dict. -/
theorem claim_C8 (raw : RawCreds) (d : List (String × PyVal))
    (h : validate_credentials raw = Except.ok d) :
    validate_credentials (rawFromDict d) = Except.ok d := by
  obtain ⟨hd, hu, hp⟩ := validate_ok_form h
  subst hd
  have hru : (rawFromDict [("username", PyVal.str (normalize_username raw.username)),
      ("password", PyVal.str (pyStrip (orEmpty raw.password)))]).username =
      some (normalize_username raw.username) := rfl
  have hrp : (rawFromDict [("username", PyVal.str (normalize_username raw.username)),
      ("password", PyVal.str (pyStrip (orEmpty raw.password)))]).password =
      some (pyStrip (orEmpty raw.password)) := rfl
  have hnu : normalize_username (some (normalize_username raw.username)) =
      normalize_username raw.username := by
    show pyLower (pyStrip (orEmpty (some (pyLower (pyStrip (orEmpty raw.username)))))) = _
    exact normalize_username_idem _
  have hps : pyStrip (orEmpty (some (pyStrip (orEmpty raw.password)))) =
      pyStrip (orEmpty raw.password) := pyStrip_idem _
  simp [validate_credentials, hru, hrp, hnu, hps, hu, hp]

/-- Witness for C8 at a concrete input. -/
theorem claim_C8_witness :
    validate_credentials ⟨some " Cara ".toList, some " pw ".toList, Option.none⟩ =
      Except.ok [("username", PyVal.str "cara".toList),
        ("password", PyVal.str "pw".toList)] ∧
    validate_credentials (rawFromDict [("username", PyVal.str "cara".toList),
        ("password", PyVal.str "pw".toList)]) =
      Except.ok [("username", PyVal.str "cara".toList),
        ("password", PyVal.str "pw".toList)] :=
  ⟨by decide,
    claim_C8 ⟨some " Cara ".toList, some " pw ".toList, Option.none⟩
      [("username", PyVal.str "cara".toList), ("password", PyVal.str "pw".toList)]
      (by decide)⟩

/-! ### Concrete verifier behaviours used by witnesses -/

/-- A verifier behaviour that raises `TimeoutError` on every call. -/
def alwaysTimeout : Verifier := fun _ _ => Except.error (PyExn.timeoutError [])

/-- A verifier behaviour that raises `TimeoutError` on the first two calls and
returns a user on the third. -/
def timeoutTwiceThenOk : Verifier := fun _ n =>
  if n < 3 then Except.error (PyExn.timeoutError []) else Except.ok ⟨"id7".toList⟩

/-! ### Claim C2 -/

/-- C2: with a verifier that raises a transient failure on every invocation
and `max_attempts = 3`, `login_with_retries` emits exactly 3 `login_attempt`
events then exactly 1 `login_error` event (and nothing else), re-raises the
verifier's last failure unchanged, and never invokes the verifier a 4th time
(its behaviour depends only on the verifier's results at attempts 1..3). -/
theorem claim_C2 (c : List (String × PyVal)) (cid : String) (v : Verifier)
    (clock : Nat → Int)
    (h : ∀ n, 1 ≤ n → n ≤ LOGIN_MAX_ATTEMPTS → isTransientErr (v c n) = true) :
    ∃ e3, v c 3 = Except.error e3 ∧
      (login_with_retries c cid v clock).2 = Except.error e3 ∧
      eventNames (login_with_retries c cid v clock).1 =
        ["login_attempt", "login_attempt", "login_attempt", "login_error"] ∧
      countEvents (login_with_retries c cid v clock).1 "login_attempt" = 3 ∧
      countEvents (login_with_retries c cid v clock).1 "login_error" = 1 ∧
      (∀ w : Verifier, (∀ n, 1 ≤ n → n ≤ LOGIN_MAX_ATTEMPTS → w c n = v c n) →
        login_with_retries c cid w clock = login_with_retries c cid v clock) := by
  obtain ⟨e1, h1, hr1⟩ := isTransientErr_form (h 1 (by decide) (by decide))
  obtain ⟨e2, h2, hr2⟩ := isTransientErr_form (h 2 (by decide) (by decide))
  obtain ⟨e3, h3, hr3⟩ := isTransientErr_form (h 3 (by decide) (by decide))
  have hl := login_shape_exhausted c cid v clock e1 e2 e3 h1 hr1 h2 hr2 h3 hr3
  refine ⟨e3, h3, by rw [hl], by rw [hl]; rfl, by rw [hl]; rfl, by rw [hl]; rfl, ?_⟩
  intro w hw
  have hw1 : w c 1 = Except.error e1 := by rw [hw 1 (by decide) (by decide), h1]
  have hw2 : w c 2 = Except.error e2 := by rw [hw 2 (by decide) (by decide), h2]
  have hw3 : w c 3 = Except.error e3 := by rw [hw 3 (by decide) (by decide), h3]
  rw [login_shape_exhausted c cid w clock e1 e2 e3 hw1 hr1 hw2 hr2 hw3 hr3, hl]

/-- Witness for C2: the always-timing-out verifier. -/
theorem claim_C2_witness :
    (∀ n, 1 ≤ n → n ≤ LOGIN_MAX_ATTEMPTS →
      isTransientErr (alwaysTimeout [] n) = true) ∧
    (∃ e3, alwaysTimeout [] 3 = Except.error e3 ∧
      (login_with_retries [] "c" alwaysTimeout (fun _ => 0)).2 = Except.error e3 ∧
      eventNames (login_with_retries [] "c" alwaysTimeout (fun _ => 0)).1 =
        ["login_attempt", "login_attempt", "login_attempt", "login_error"] ∧
      countEvents (login_with_retries [] "c" alwaysTimeout (fun _ => 0)).1
        "login_attempt" = 3 ∧
      countEvents (login_with_retries [] "c" alwaysTimeout (fun _ => 0)).1
        "login_error" = 1 ∧
      (∀ w : Verifier,
        (∀ n, 1 ≤ n → n ≤ LOGIN_MAX_ATTEMPTS → w [] n = alwaysTimeout [] n) →
        login_with_retries [] "c" w (fun _ => 0) =
          login_with_retries [] "c" alwaysTimeout (fun _ => 0))) :=
  ⟨fun _ _ _ => rfl,
    claim_C2 [] "c" alwaysTimeout (fun _ => 0) (fun _ _ _ => rfl)⟩

/-! ### Claim C3 -/

/-- C3: with a verifier that raises transient failures on attempts 1 and 2
and returns an identity on attempt 3 (`max_attempts = 3`),
`login_with_retries` returns that identity and emits exactly 3
`login_attempt` events followed by exactly 1 `login_success` event, in that
order, all carrying the caller's correlation id. -/
theorem claim_C3 (c : List (String × PyVal)) (cid : String) (v : Verifier)
    (clock : Nat → Int) (e1 e2 : PyExn) (u : Ident)
    (h1 : v c 1 = Except.error e1) (hr1 : isRetryable e1 = true)
    (h2 : v c 2 = Except.error e2) (hr2 : isRetryable e2 = true)
    (h3 : v c 3 = Except.ok u) :
    (login_with_retries c cid v clock).2 = Except.ok u ∧
    eventNames (login_with_retries c cid v clock).1 =
      ["login_attempt", "login_attempt", "login_attempt", "login_success"] ∧
    (∀ ev ∈ eventsOf (login_with_retries c cid v clock).1,
      ev.correlation_id = cid) := by
  have hl := login_shape_ok3 c cid v clock e1 e2 u h1 hr1 h2 hr2 h3
  refine ⟨by rw [hl], by rw [hl]; rfl, ?_⟩
  rw [hl]
  intro ev hev
  simp only [eventsOf, List.filterMap_cons, List.filterMap_nil] at hev
  simp only [List.mem_cons, List.not_mem_nil, or_false] at hev
  rcases hev with h | h | h | h <;> subst h <;> rfl

/-- Witness for C3: timeout twice, then success. -/
theorem claim_C3_witness :
    timeoutTwiceThenOk [] 1 = Except.error (PyExn.timeoutError []) ∧
    timeoutTwiceThenOk [] 2 = Except.error (PyExn.timeoutError []) ∧
    timeoutTwiceThenOk [] 3 = Except.ok ⟨"id7".toList⟩ ∧
    isRetryable (PyExn.timeoutError []) = true ∧
    ((login_with_retries [] "c" timeoutTwiceThenOk (fun _ => 0)).2 =
        Except.ok ⟨"id7".toList⟩ ∧
      eventNames (login_with_retries [] "c" timeoutTwiceThenOk (fun _ => 0)).1 =
        ["login_attempt", "login_attempt", "login_attempt", "login_success"] ∧
      (∀ ev ∈ eventsOf (login_with_retries [] "c" timeoutTwiceThenOk (fun _ => 0)).1,
        ev.correlation_id = "c")) :=
  ⟨rfl, rfl, rfl, rfl,
    claim_C3 [] "c" timeoutTwiceThenOk (fun _ => 0) (PyExn.timeoutError [])
      (PyExn.timeoutError []) ⟨"id7".toList⟩ rfl rfl rfl rfl rfl⟩

/-! ### Claim C10 -/

/-- C10: for every verifier behaviour, `login_with_retries` terminates with a
result produced inside the attempt loop — a user returned by the verifier, or
an exception the verifier raised, at some attempt 1..3; the
`RuntimeError("Login retry loop ended unexpectedly.")` after the loop is
unreachable. -/
theorem claim_C10 (c : List (String × PyVal)) (cid : String) (v : Verifier)
    (clock : Nat → Int) :
    (∃ u n, 1 ≤ n ∧ n ≤ LOGIN_MAX_ATTEMPTS ∧ v c n = Except.ok u ∧
      (login_with_retries c cid v clock).2 = Except.ok u) ∨
    (∃ e n, 1 ≤ n ∧ n ≤ LOGIN_MAX_ATTEMPTS ∧ v c n = Except.error e ∧
      (login_with_retries c cid v clock).2 = Except.error e) := by
  rcases h1 : v c 1 with e1 | u
  case ok =>
    exact Or.inl ⟨u, 1, by decide, by decide, h1,
      by rw [login_shape_ok1 c cid v clock u h1]⟩
  case error =>
    rcases hr1 : isRetryable e1 with _ | _
    case false =>
      exact Or.inr ⟨e1, 1, by decide, by decide, h1,
        by rw [login_shape_perm1 c cid v clock e1 h1 hr1]⟩
    case true =>
      rcases h2 : v c 2 with e2 | u
      case ok =>
        exact Or.inl ⟨u, 2, by decide, by decide, h2,
          by rw [login_shape_ok2 c cid v clock e1 u h1 hr1 h2]⟩
      case error =>
        rcases hr2 : isRetryable e2 with _ | _
        case false =>
          exact Or.inr ⟨e2, 2, by decide, by decide, h2,
            by rw [login_shape_perm2 c cid v clock e1 e2 h1 hr1 h2 hr2]⟩
        case true =>
          rcases h3 : v c 3 with e3 | u
          case ok =>
            exact Or.inl ⟨u, 3, by decide, by decide, h3,
              by rw [login_shape_ok3 c cid v clock e1 e2 u h1 hr1 h2 hr2 h3]⟩
          case error =>
            rcases hr3 : isRetryable e3 with _ | _
            case false =>
              exact Or.inr ⟨e3, 3, by decide, by decide, h3,
                by rw [login_shape_perm3 c cid v clock e1 e2 e3 h1 hr1 h2 hr2 h3 hr3]⟩
            case true =>
              exact Or.inr ⟨e3, 3, by decide, by decide, h3,
                by rw [login_shape_exhausted c cid v clock e1 e2 e3 h1 hr1 h2 hr2 h3 hr3]⟩

/-! ### Counting and trace-end helpers for the `main`-level claims -/

lemma countEvents_append (a b : List Action) (n : String) :
    countEvents (a ++ b) n = countEvents a n + countEvents b n := by
  simp [countEvents, eventsOf, List.filterMap_append, List.countP_append]

lemma countSleeps_append (a b : List Action) :
    countSleeps (a ++ b) = countSleeps a + countSleeps b := by
  simp [countSleeps, List.countP_append]

lemma countEvents_handleMainExn_attempt (cid : String) (e : PyExn) :
    countEvents (handleMainExn cid e) "login_attempt" = 0 := by
  cases e <;> rfl

lemma countSleeps_handleMainExn (cid : String) (e : PyExn) :
    countSleeps (handleMainExn cid e) = 0 := by
  cases e <;> rfl

lemma isFailure_mainOutcomeOfExn (e : PyExn) :
    (mainOutcomeOfExn e).isFailure = true := by
  cases e <;> rfl

lemma getLast_append_pair {α : Type} (l : List α) (a b : α) :
    (l ++ [a, b]).getLast? = some b := by
  rw [show l ++ [a, b] = (l ++ [a]) ++ [b] by simp, List.getLast?_concat]

lemma getLast_handleMainExn (l : List Action) (cid : String) (e : PyExn) :
    ∃ m, (l ++ handleMainExn cid e).getLast? = some (Action.print m) := by
  cases e <;> exact ⟨_, getLast_append_pair l _ _⟩

/-! ### Claim C1 (corrected: transient exhaustion emits two failure events) -/

/-- C1 counterexample: with valid credentials and a verifier that times out on
every attempt, the run fails terminally, yet the trace carries two
`login_failed`/`login_error` events (one from `login_with_retries`, a second
from `main`'s generic handler) — not exactly one. -/
theorem claim_C1_counterexample :
    (mainRun ⟨some "u".toList, some "p".toList, Option.none⟩ "c"
        alwaysTimeout (fun _ => 0)).2 =
      MainOutcome.reraised (PyExn.timeoutError []) ∧
    countFailureEvents (mainRun ⟨some "u".toList, some "p".toList, Option.none⟩ "c"
        alwaysTimeout (fun _ => 0)).1 = 2 ∧
    countFailureEvents (mainRun ⟨some "u".toList, some "p".toList, Option.none⟩ "c"
        alwaysTimeout (fun _ => 0)).1 ≠ 1 := by
  exact ⟨by decide, by decide, by decide⟩

/-- C1 amended: every terminal failure of a run emits at least one
`login_failed`/`login_error` event before the final user-facing print —
exactly one, except that a transient failure surviving all three attempts
emits two `login_error` events (one inside `login_with_retries`, one from
`main`'s generic handler). -/
theorem claim_C1_amended (raw : RawCreds) (cid : String) (v : Verifier)
    (clock : Nat → Int) (h : (mainRun raw cid v clock).2.isFailure = true) :
    countFailureEvents (mainRun raw cid v clock).1 =
      (if exhaustedTransient raw v then 2 else 1) ∧
    (∃ m, (mainRun raw cid v clock).1.getLast? = some (Action.print m)) := by
  rcases mainRun_cases raw cid v clock with
    ⟨m, hv, heq⟩ |
    ⟨c, hv, ⟨u, h1, heq⟩ | ⟨e, h1, hr, heq⟩ | ⟨e1, u, h1, hr1, h2, heq⟩ |
      ⟨e1, e2, h1, hr1, h2, hr2, heq⟩ | ⟨e1, e2, u, h1, hr1, h2, hr2, h3, heq⟩ |
      ⟨e1, e2, e3, h1, hr1, h2, hr2, h3, hr3, heq⟩ |
      ⟨e1, e2, e3, h1, hr1, h2, hr2, h3, hr3, heq⟩⟩
  · rw [heq]
    constructor
    · have hex : exhaustedTransient raw v = false := by
        simp [exhaustedTransient, hv]
      rw [hex, countFailure_handleMainExn]
      rfl
    · exact getLast_handleMainExn [] cid (PyExn.valueError m)
  · rw [heq] at h
    simp [MainOutcome.isFailure] at h
  · rw [heq]
    constructor
    · have hex : exhaustedTransient raw v = false := by
        simp [exhaustedTransient, hv, h1, isTransientErr, hr]
      rw [hex, countFailureEvents_append, countFailure_handleMainExn]
      rfl
    · exact getLast_handleMainExn _ cid _
  · rw [heq] at h
    simp [MainOutcome.isFailure] at h
  · rw [heq]
    constructor
    · have hex : exhaustedTransient raw v = false := by
        simp [exhaustedTransient, hv, h1, h2, isTransientErr, hr2]
      rw [hex, countFailureEvents_append, countFailure_handleMainExn]
      rfl
    · exact getLast_handleMainExn _ cid _
  · rw [heq] at h
    simp [MainOutcome.isFailure] at h
  · rw [heq]
    constructor
    · have hex : exhaustedTransient raw v = true := by
        simp [exhaustedTransient, hv, h1, h2, h3, isTransientErr, hr1, hr2, hr3]
      rw [hex, countFailureEvents_append, countFailure_handleMainExn]
      rfl
    · exact getLast_handleMainExn _ cid _
  · rw [heq]
    constructor
    · have hex : exhaustedTransient raw v = false := by
        simp [exhaustedTransient, hv, h1, h2, h3, isTransientErr, hr3]
      rw [hex, countFailureEvents_append, countFailure_handleMainExn]
      rfl
    · exact getLast_handleMainExn _ cid _

/-- Witness for C1 amended: a run that fails validation (terminal failure,
not transient-exhausted) satisfies the amended count. -/
theorem claim_C1_amended_witness :
    (mainRun ⟨some " ".toList, some "p".toList, Option.none⟩ "c"
        alwaysTimeout (fun _ => 0)).2.isFailure = true ∧
    (countFailureEvents (mainRun ⟨some " ".toList, some "p".toList, Option.none⟩ "c"
        alwaysTimeout (fun _ => 0)).1 =
      (if exhaustedTransient ⟨some " ".toList, some "p".toList, Option.none⟩
          alwaysTimeout then 2 else 1) ∧
      (∃ m, (mainRun ⟨some " ".toList, some "p".toList, Option.none⟩ "c"
          alwaysTimeout (fun _ => 0)).1.getLast? = some (Action.print m))) :=
  ⟨by decide,
    claim_C1_amended ⟨some " ".toList, some "p".toList, Option.none⟩ "c"
      alwaysTimeout (fun _ => 0) (by decide)⟩

/-! ### Claim C4 (corrected: only a permission failure classifies as
INVALID_CREDENTIALS; other non-transient kinds classify differently) -/

/-- C4 counterexample: a verifier that raises a non-transient `RuntimeError`
on its first invocation fails the run immediately after one `login_attempt`
event, but the spec-modelled classifier maps that failure to `UNKNOWN_ERROR`,
not `INVALID_CREDENTIALS`. -/
theorem claim_C4_counterexample :
    (mainRun ⟨some "u".toList, some "p".toList, Option.none⟩ "c"
        (fun _ _ => Except.error (PyExn.runtimeError "boom".toList))
        (fun _ => 0)).2 =
      MainOutcome.reraised (PyExn.runtimeError "boom".toList) ∧
    countEvents (mainRun ⟨some "u".toList, some "p".toList, Option.none⟩ "c"
        (fun _ _ => Except.error (PyExn.runtimeError "boom".toList))
        (fun _ => 0)).1 "login_attempt" = 1 ∧
    isRetryable (PyExn.runtimeError "boom".toList) = false ∧
    classify (PyExn.runtimeError "boom".toList) = ErrorCode.UNKNOWN_ERROR ∧
    ErrorCode.UNKNOWN_ERROR ≠ ErrorCode.INVALID_CREDENTIALS := by
  exact ⟨by decide, by decide, by decide, by decide, by decide⟩

/-- C4 amended: a verifier failure of any non-transient kind on the first
invocation yields exactly one `login_attempt` event, no backoff sleep, and an
immediate terminal failure; when that failure is specifically
permission-denied, the spec-modelled classifier maps it to
`INVALID_CREDENTIALS`. -/
theorem claim_C4_amended (raw : RawCreds) (c : List (String × PyVal)) (cid : String)
    (v : Verifier) (clock : Nat → Int) (e : PyExn)
    (hv : validate_credentials raw = Except.ok c) (h1 : v c 1 = Except.error e)
    (hr : isRetryable e = false) :
    countEvents (mainRun raw cid v clock).1 "login_attempt" = 1 ∧
    countSleeps (mainRun raw cid v clock).1 = 0 ∧
    (mainRun raw cid v clock).2 = mainOutcomeOfExn e ∧
    (mainRun raw cid v clock).2.isFailure = true ∧
    (∀ m, e = PyExn.permissionError m →
      classify e = ErrorCode.INVALID_CREDENTIALS) := by
  have hmain : mainRun raw cid v clock =
      ([Action.event (attemptEvent cid 1)] ++ handleMainExn cid e,
        mainOutcomeOfExn e) := by
    simp [mainRun, hv, login_shape_perm1 c cid v clock e h1 hr]
  rw [hmain]
  refine ⟨?_, ?_, rfl, isFailure_mainOutcomeOfExn e, ?_⟩
  · rw [countEvents_append, countEvents_handleMainExn_attempt]
    rfl
  · rw [countSleeps_append, countSleeps_handleMainExn]
    rfl
  · intro m hm
    subst hm
    rfl

/-- A verifier behaviour that raises `PermissionError` on every call. -/
def alwaysPermDenied : Verifier :=
  fun _ _ => Except.error (PyExn.permissionError "denied".toList)

/-- Witness for C4 amended: a permission-denied verifier. -/
theorem claim_C4_amended_witness :
    validate_credentials ⟨some "u".toList, some "p".toList, Option.none⟩ =
      Except.ok [("username", PyVal.str "u".toList),
        ("password", PyVal.str "p".toList)] ∧
    alwaysPermDenied [("username", PyVal.str "u".toList),
        ("password", PyVal.str "p".toList)] 1 =
      Except.error (PyExn.permissionError "denied".toList) ∧
    isRetryable (PyExn.permissionError "denied".toList) = false ∧
    (countEvents (mainRun ⟨some "u".toList, some "p".toList, Option.none⟩ "c"
        alwaysPermDenied (fun _ => 0)).1 "login_attempt" = 1 ∧
      countSleeps (mainRun ⟨some "u".toList, some "p".toList, Option.none⟩ "c"
        alwaysPermDenied (fun _ => 0)).1 = 0 ∧
      (mainRun ⟨some "u".toList, some "p".toList, Option.none⟩ "c"
        alwaysPermDenied (fun _ => 0)).2 =
        mainOutcomeOfExn (PyExn.permissionError "denied".toList) ∧
      (mainRun ⟨some "u".toList, some "p".toList, Option.none⟩ "c"
        alwaysPermDenied (fun _ => 0)).2.isFailure = true ∧
      (∀ m, PyExn.permissionError "denied".toList = PyExn.permissionError m →
        classify (PyExn.permissionError "denied".toList) =
          ErrorCode.INVALID_CREDENTIALS)) :=
  ⟨by decide, rfl, rfl,
    claim_C4_amended ⟨some "u".toList, some "p".toList, Option.none⟩
      [("username", PyVal.str "u".toList), ("password", PyVal.str "p".toList)] "c"
      alwaysPermDenied (fun _ => 0) (PyExn.permissionError "denied".toList)
      (by decide) rfl rfl⟩

/-! ### Claim C6 (corrected: a ValueError's raw text does reach an event) -/

/-- The fixed, input-independent strings the module is allowed to emit:
event names, the two validation messages (alone and inside the printed
line), and the generic failure line. -/
def approvedFixedStrings : List PyStr :=
  ["login_attempt".toList, "login_success".toList, "login_error".toList,
    "login_failed".toList, "Username is required.".toList,
    "Password is required.".toList,
    "Login failed: Username is required.".toList,
    "Login failed: Password is required.".toList,
    "Unexpected error occurred.".toList]

lemma traceStrings_append (a b : List Action) :
    traceStrings (a ++ b) = traceStrings a ++ traceStrings b := by
  induction a with
  | nil => rfl
  | cons x t ih =>
    show actionStrings x ++ traceStrings (t ++ b) =
      (actionStrings x ++ traceStrings t) ++ traceStrings b
    rw [ih, List.append_assoc]

lemma traceStrings_handleMainExn (cid : String) (e : PyExn) (s : PyStr)
    (hs : s ∈ traceStrings (handleMainExn cid e)) :
    (∃ m, e = PyExn.valueError m ∧
      (s = "login_failed".toList ∨ s = m ∨ s = "Login failed: ".toList ++ m)) ∨
    ((∀ m, e ≠ PyExn.valueError m) ∧
      (s = "login_error".toList ∨ s = exnName e ∨
        s = "Unexpected error occurred.".toList)) := by
  rcases e with m | m | m | m | m | ⟨nm, m⟩
  · left
    refine ⟨m, rfl, ?_⟩
    simpa [traceStrings, actionStrings, handleMainExn, track_login_event] using hs
  all_goals
    right
    refine ⟨fun m2 h => PyExn.noConfusion h, ?_⟩
    simpa [traceStrings, actionStrings, handleMainExn, track_login_event,
      exnName] using hs

/-- C6 counterexample: when the verifier raises
`ValueError("internal verifier detail")`, the run emits a `login_failed`
event whose `reason` field is exactly that raw exception text, and prints it
— so an emitted event does contain the raw exception text of a failure. -/
theorem claim_C6_counterexample :
    Action.event (track_login_event "login_failed" "c" Option.none
        [("reason", PyVal.str "internal verifier detail".toList)]) ∈
      (mainRun ⟨some "u".toList, some "p".toList, Option.none⟩ "c"
        (fun _ _ => Except.error (PyExn.valueError "internal verifier detail".toList))
        (fun _ => 0)).1 ∧
    Action.print "Login failed: internal verifier detail".toList ∈
      (mainRun ⟨some "u".toList, some "p".toList, Option.none⟩ "c"
        (fun _ _ => Except.error (PyExn.valueError "internal verifier detail".toList))
        (fun _ => 0)).1 ∧
    exnMsg (PyExn.valueError "internal verifier detail".toList) =
      "internal verifier detail".toList := by
  exact ⟨by decide, by decide, by decide⟩

/-- C6 amended: every string occurring in an emitted event or printed message
is either one of the fixed approved strings, or derived from the verifier's
result (the identity id and its success line; a raised exception's class
name; and — contrary to the original claim — a raised `ValueError`'s raw
message text, which reappears as the `login_failed` reason and inside the
printed failure line).  In particular no string is ever built from the raw
password. -/
theorem claim_C6_amended (raw : RawCreds) (cid : String) (v : Verifier)
    (clock : Nat → Int) (s : PyStr)
    (hs : s ∈ traceStrings (mainRun raw cid v clock).1) :
    s ∈ approvedFixedStrings ∨
    (∃ c n u, validate_credentials raw = Except.ok c ∧
      1 ≤ n ∧ n ≤ LOGIN_MAX_ATTEMPTS ∧ v c n = Except.ok u ∧
      (s = u.id ∨ s = "User logged in successfully. user_id=".toList ++ u.id)) ∨
    (∃ c n e, validate_credentials raw = Except.ok c ∧
      1 ≤ n ∧ n ≤ LOGIN_MAX_ATTEMPTS ∧ v c n = Except.error e ∧
      (s = exnName e ∨
        (∃ m, e = PyExn.valueError m ∧
          (s = m ∨ s = "Login failed: ".toList ++ m)))) := by
  rcases mainRun_cases raw cid v clock with
    ⟨m, hv, heq⟩ |
    ⟨c, hv, ⟨u, h1, heq⟩ | ⟨e, h1, hr, heq⟩ | ⟨e1, u, h1, hr1, h2, heq⟩ |
      ⟨e1, e2, h1, hr1, h2, hr2, heq⟩ | ⟨e1, e2, u, h1, hr1, h2, hr2, h3, heq⟩ |
      ⟨e1, e2, e3, h1, hr1, h2, hr2, h3, hr3, heq⟩ |
      ⟨e1, e2, e3, h1, hr1, h2, hr2, h3, hr3, heq⟩⟩
  · rw [heq] at hs
    have hs2 : s ∈ traceStrings (handleMainExn cid (PyExn.valueError m)) := hs
    left
    rcases traceStrings_handleMainExn cid (PyExn.valueError m) s hs2 with
      ⟨m2, hm2, h⟩ | ⟨hne, _⟩
    · injection hm2 with hm2
      subst hm2
      rcases validate_error_form hv with hm | hm <;> injection hm with hm <;>
        subst hm <;> rcases h with h | h | h <;> subst h <;> decide
    · exact absurd rfl (hne m)
  · rw [heq] at hs
    simp [traceStrings, actionStrings, attemptEvent, successEvent,
      track_login_event] at hs
    rcases hs with h | h | h | h
    · subst h; left; decide
    · subst h; left; decide
    · exact Or.inr (Or.inl ⟨c, 1, u, hv, by decide, by decide, h1, Or.inl h⟩)
    · exact Or.inr (Or.inl ⟨c, 1, u, hv, by decide, by decide, h1, Or.inr h⟩)
  · rw [heq] at hs
    have hs2 : s ∈ traceStrings ([Action.event (attemptEvent cid 1)] ++
      handleMainExn cid e) := hs
    rw [traceStrings_append, List.mem_append] at hs2
    rcases hs2 with hs2 | hs2
    · simp [traceStrings, actionStrings, attemptEvent, track_login_event] at hs2
      subst hs2; left; decide
    · rcases traceStrings_handleMainExn cid e s hs2 with
        ⟨m, hm, h | h | h⟩ | ⟨hne, h | h | h⟩
      · subst h; left; decide
      · exact Or.inr (Or.inr ⟨c, 1, e, hv, by decide, by decide, h1,
          Or.inr ⟨m, hm, Or.inl h⟩⟩)
      · exact Or.inr (Or.inr ⟨c, 1, e, hv, by decide, by decide, h1,
          Or.inr ⟨m, hm, Or.inr h⟩⟩)
      · subst h; left; decide
      · exact Or.inr (Or.inr ⟨c, 1, e, hv, by decide, by decide, h1, Or.inl h⟩)
      · subst h; left; decide
  · rw [heq] at hs
    simp [traceStrings, actionStrings, attemptEvent, successEvent,
      track_login_event] at hs
    rcases hs with h | h | h | h
    · subst h; left; decide
    · subst h; left; decide
    · exact Or.inr (Or.inl ⟨c, 2, u, hv, by decide, by decide, h2, Or.inl h⟩)
    · exact Or.inr (Or.inl ⟨c, 2, u, hv, by decide, by decide, h2, Or.inr h⟩)
  · rw [heq] at hs
    have hs2 : s ∈ traceStrings ([Action.event (attemptEvent cid 1),
      Action.sleep (LOGIN_RETRY_BACKOFF_MS * 1), Action.event (attemptEvent cid 2)] ++
      handleMainExn cid e2) := hs
    rw [traceStrings_append, List.mem_append] at hs2
    rcases hs2 with hs2 | hs2
    · simp [traceStrings, actionStrings, attemptEvent, track_login_event] at hs2
      subst hs2; left; decide
    · rcases traceStrings_handleMainExn cid e2 s hs2 with
        ⟨m, hm, h | h | h⟩ | ⟨hne, h | h | h⟩
      · subst h; left; decide
      · exact Or.inr (Or.inr ⟨c, 2, e2, hv, by decide, by decide, h2,
          Or.inr ⟨m, hm, Or.inl h⟩⟩)
      · exact Or.inr (Or.inr ⟨c, 2, e2, hv, by decide, by decide, h2,
          Or.inr ⟨m, hm, Or.inr h⟩⟩)
      · subst h; left; decide
      · exact Or.inr (Or.inr ⟨c, 2, e2, hv, by decide, by decide, h2, Or.inl h⟩)
      · subst h; left; decide
  · rw [heq] at hs
    simp [traceStrings, actionStrings, attemptEvent, successEvent,
      track_login_event] at hs
    rcases hs with h | h | h | h
    · subst h; left; decide
    · subst h; left; decide
    · exact Or.inr (Or.inl ⟨c, 3, u, hv, by decide, by decide, h3, Or.inl h⟩)
    · exact Or.inr (Or.inl ⟨c, 3, u, hv, by decide, by decide, h3, Or.inr h⟩)
  · rw [heq] at hs
    have hs2 : s ∈ traceStrings ([Action.event (attemptEvent cid 1),
      Action.sleep (LOGIN_RETRY_BACKOFF_MS * 1), Action.event (attemptEvent cid 2),
      Action.sleep (LOGIN_RETRY_BACKOFF_MS * 2), Action.event (attemptEvent cid 3),
      Action.event (loginErrorEvent cid e3 3 (clock 1 - clock 0))] ++
      handleMainExn cid e3) := hs
    rw [traceStrings_append, List.mem_append] at hs2
    rcases hs2 with hs2 | hs2
    · simp [traceStrings, actionStrings, attemptEvent, loginErrorEvent,
        track_login_event] at hs2
      rcases hs2 with h | h | h
      · subst h; left; decide
      · subst h; left; decide
      · exact Or.inr (Or.inr ⟨c, 3, e3, hv, by decide, by decide, h3, Or.inl h⟩)
    · rcases traceStrings_handleMainExn cid e3 s hs2 with
        ⟨m, hm, h | h | h⟩ | ⟨hne, h | h | h⟩
      · subst h; left; decide
      · exact Or.inr (Or.inr ⟨c, 3, e3, hv, by decide, by decide, h3,
          Or.inr ⟨m, hm, Or.inl h⟩⟩)
      · exact Or.inr (Or.inr ⟨c, 3, e3, hv, by decide, by decide, h3,
          Or.inr ⟨m, hm, Or.inr h⟩⟩)
      · subst h; left; decide
      · exact Or.inr (Or.inr ⟨c, 3, e3, hv, by decide, by decide, h3, Or.inl h⟩)
      · subst h; left; decide
  · rw [heq] at hs
    have hs2 : s ∈ traceStrings ([Action.event (attemptEvent cid 1),
      Action.sleep (LOGIN_RETRY_BACKOFF_MS * 1), Action.event (attemptEvent cid 2),
      Action.sleep (LOGIN_RETRY_BACKOFF_MS * 2), Action.event (attemptEvent cid 3)] ++
      handleMainExn cid e3) := hs
    rw [traceStrings_append, List.mem_append] at hs2
    rcases hs2 with hs2 | hs2
    · simp [traceStrings, actionStrings, attemptEvent, track_login_event] at hs2
      subst hs2; left; decide
    · rcases traceStrings_handleMainExn cid e3 s hs2 with
        ⟨m, hm, h | h | h⟩ | ⟨hne, h | h | h⟩
      · subst h; left; decide
      · exact Or.inr (Or.inr ⟨c, 3, e3, hv, by decide, by decide, h3,
          Or.inr ⟨m, hm, Or.inl h⟩⟩)
      · exact Or.inr (Or.inr ⟨c, 3, e3, hv, by decide, by decide, h3,
          Or.inr ⟨m, hm, Or.inr h⟩⟩)
      · subst h; left; decide
      · exact Or.inr (Or.inr ⟨c, 3, e3, hv, by decide, by decide, h3, Or.inl h⟩)
      · subst h; left; decide

/-- A verifier behaviour that succeeds immediately. -/
def okFirst : Verifier := fun _ _ => Except.ok ⟨"id7".toList⟩

/-- Witness for C6 amended at a concrete run and string. -/
theorem claim_C6_amended_witness :
    "login_attempt".toList ∈ traceStrings
      (mainRun ⟨some "u".toList, some "p".toList, Option.none⟩ "c" okFirst
        (fun _ => 0)).1 ∧
    ("login_attempt".toList ∈ approvedFixedStrings ∨
    (∃ c n u, validate_credentials ⟨some "u".toList, some "p".toList, Option.none⟩ =
        Except.ok c ∧
      1 ≤ n ∧ n ≤ LOGIN_MAX_ATTEMPTS ∧ okFirst c n = Except.ok u ∧
      ("login_attempt".toList = u.id ∨
        "login_attempt".toList =
          "User logged in successfully. user_id=".toList ++ u.id)) ∨
    (∃ c n e, validate_credentials ⟨some "u".toList, some "p".toList, Option.none⟩ =
        Except.ok c ∧
      1 ≤ n ∧ n ≤ LOGIN_MAX_ATTEMPTS ∧ okFirst c n = Except.error e ∧
      ("login_attempt".toList = exnName e ∨
        (∃ m, e = PyExn.valueError m ∧
          ("login_attempt".toList = m ∨
            "login_attempt".toList = "Login failed: ".toList ++ m))))) :=
  ⟨by decide,
    claim_C6_amended ⟨some "u".toList, some "p".toList, Option.none⟩ "c" okFirst
      (fun _ => 0) "login_attempt".toList (by decide)⟩

end Aqua
